import Mathlib

/-!
Verification of the test/resilience orchestrator of a distributed CRUD demo:
the readiness poller, the suite registry and reporter, the load generator
metrics, and the fault-injection scenarios.  Definitions are shallow
embeddings of the JavaScript source files (scripts/run-all-tests.js,
tests/system-recovery.test.js, tests/stress-test.js).
-/

/-! ## Readiness poller (waitForService, tests/system-recovery.test.js lines 26-39)

The JavaScript loop issues up to maxRetries health probes; a probe either
resolves with an HTTP status or throws a transport error.  The function
returns true on the first probe that resolves with status 200 and false
after the loop is exhausted.  The embedding additionally counts the number
of probes performed.
-/

/-- One health-probe result: an HTTP response with a status code, or a
thrown transport error. -/
inductive ProbeResult where
  | ok (status : Nat)
  | err
deriving DecidableEq

/-- The success test of the loop body: response.status strictly equals 200;
a thrown error is not a success. -/
def isHealthy : ProbeResult → Bool
  | ProbeResult.ok s => s == 200
  | ProbeResult.err => false

/-- The polling loop of waitForService, starting at attempt index i with the
given remaining fuel.  Returns the boolean result together with the number
of probes performed. -/
def waitForServiceGo (probe : Nat → ProbeResult) : Nat → Nat → Bool × Nat
  | _, 0 => (false, 0)
  | i, fuel + 1 =>
    if isHealthy (probe i) then (true, 1)
    else
      let r := waitForServiceGo probe (i + 1) fuel
      (r.1, r.2 + 1)

/-- waitForService(url, maxRetries, retryInterval): poll the health endpoint
up to maxRetries times; the probe environment abstracts the network.  The
second component counts probes performed.  The source has no cancellation
input: the loop runs until a healthy probe or exhaustion. -/
def waitForService (probe : Nat → ProbeResult) (maxRetries : Nat) : Bool × Nat :=
  waitForServiceGo probe 0 maxRetries

/-! ## Suite registry and reporter (scripts/run-all-tests.js)

runAllTests awaits the six suite runners in sequence inside a single
try/catch; on an uncaught error it logs and returns false at once.  When
all six complete, it tallies required/optional pass counts over the fixed
testSuites table and classifies the run.
-/

/-- One entry of the testSuites table: the key into testResults and the
required flag. -/
structure SuiteSpec where
  key : String
  required : Bool

/-- The six registered suites, in execution order, with their required
flags (run-all-tests.js lines 57-64). -/
def testSuites : List SuiteSpec :=
  [⟨"distributedCommunication", true⟩,
   ⟨"replication", true⟩,
   ⟨"monitoring", true⟩,
   ⟨"stressTesting", true⟩,
   ⟨"systemRecovery", false⟩,
   ⟨"deploymentAutomation", false⟩]

/-- The testResults object once all six suites have completed: one boolean
per suite key. -/
structure TestResults where
  distributedCommunication : Bool
  replication : Bool
  monitoring : Bool
  stressTesting : Bool
  systemRecovery : Bool
  deploymentAutomation : Bool

/-- Lookup testResults[key], as the forEach body does. -/
def suiteResult (r : TestResults) (key : String) : Bool :=
  if key = "distributedCommunication" then r.distributedCommunication
  else if key = "replication" then r.replication
  else if key = "monitoring" then r.monitoring
  else if key = "stressTesting" then r.stressTesting
  else if key = "systemRecovery" then r.systemRecovery
  else if key = "deploymentAutomation" then r.deploymentAutomation
  else false

/-- The five counters accumulated by the forEach over testSuites. -/
structure Counts where
  totalPassed : Nat
  requiredPassed : Nat
  totalRequired : Nat
  optionalPassed : Nat
  totalOptional : Nat

def initCounts : Counts := ⟨0, 0, 0, 0, 0⟩

/-- The forEach body (run-all-tests.js lines 72-90) applied to one
(passed, required) pair. -/
def tally (acc : Counts) (p : Bool × Bool) : Counts :=
  let acc :=
    if p.1 then
      let acc := { acc with totalPassed := acc.totalPassed + 1 }
      if p.2 then { acc with requiredPassed := acc.requiredPassed + 1 }
      else { acc with optionalPassed := acc.optionalPassed + 1 }
    else acc
  if p.2 then { acc with totalRequired := acc.totalRequired + 1 }
  else { acc with totalOptional := acc.totalOptional + 1 }

/-- The (passed, required) pairs in suite order for a completed run. -/
def suiteOutcomes (r : TestResults) : List (Bool × Bool) :=
  testSuites.map (fun s => (suiteResult r s.key, s.required))

def countsOf (r : TestResults) : Counts :=
  (suiteOutcomes r).foldl tally initCounts

/-- allRequiredPassed = (requiredPassed === totalRequired). -/
def allRequiredPassed (r : TestResults) : Bool :=
  (countsOf r).requiredPassed == (countsOf r).totalRequired

/-- allTestsPassed = (totalPassed === testSuites.length). -/
def allTestsPassed (r : TestResults) : Bool :=
  (countsOf r).totalPassed == testSuites.length

/-- The three overall classifications printed by the reporter. -/
inductive Verdict where
  | allPass
  | meetsMinimum
  | failed
deriving DecidableEq

/-- The if / else-if / else classification (run-all-tests.js lines
102-113). -/
def verdictOf (r : TestResults) : Verdict :=
  if allTestsPassed r then Verdict.allPass
  else if allRequiredPassed r then Verdict.meetsMinimum
  else Verdict.failed

/-- The boolean runAllTests returns to its caller once all suites have
completed (run-all-tests.js line 117). -/
def runAllTestsReturn (r : TestResults) : Bool :=
  allRequiredPassed r

/-- The behaviour of one awaited suite runner: it resolves with a boolean
or it throws. -/
inductive RunOutcome where
  | ok (passed : Bool)
  | threw
deriving DecidableEq

/-- Sequential execution of the suite runners inside the try block: stops
at the first runner that throws.  Returns the collected booleans (none if
a runner threw) and the number of runners that were executed. -/
def runSuitesGo : List RunOutcome → Option (List Bool) × Nat
  | [] => (some [], 0)
  | RunOutcome.threw :: _ => (none, 1)
  | RunOutcome.ok b :: rest =>
    let r := runSuitesGo rest
    (r.1.map (fun l => b :: l), r.2 + 1)

/-- allRequiredPassed computed from the positional result list of a run in
which every executed suite completed. -/
def allRequiredPassedList (rs : List Bool) : Bool :=
  let counts := (rs.zip (testSuites.map (fun s => s.required))).foldl tally initCounts
  counts.requiredPassed == counts.totalRequired

/-- runAllTests over the list of suite-runner behaviours: the single
try/catch returns false as soon as any runner throws (run-all-tests.js
lines 16-50); otherwise the verdict machinery runs and allRequiredPassed
is returned.  The second component is the number of suites executed. -/
def runAllTestsList (os : List RunOutcome) : Bool × Nat :=
  match runSuitesGo os with
  | (none, n) => (false, n)
  | (some rs, n) => (allRequiredPassedList rs, n)

/-! ## Load-generator metrics (tests/stress-test.js)

The module-level testMetrics object, resetMetrics, the per-request
recording performed by simulateUserRequests / simulateOrderRequests /
simulateMixedRequests, and calculateResults.  Latencies are millisecond
naturals; wall-clock times are integers (the JavaScript null start/end is
modelled as 0, which matches the numeric coercion of null in the
subtraction endTime - startTime); rates are exact rationals.
-/

/-- The testMetrics accumulator (stress-test.js lines 355-363). -/
structure TestMetrics where
  totalRequests : Nat
  successfulRequests : Nat
  failedRequests : Nat
  responseTimes : List Nat
  errors : List String
  startTime : Int
  endTime : Int
deriving DecidableEq

/-- The fresh object assigned by resetMetrics (stress-test.js lines
657-667). -/
def resetMetricsState : TestMetrics :=
  ⟨0, 0, 0, [], [], 0, 0⟩

/-- One request attempt as the try block observes it: either the awaited
call resolved after some elapsed time, or it threw (timeout or
transport/HTTP error) after some elapsed time, carrying an error
message. -/
inductive AttemptResult where
  | ok (latency : Nat)
  | fail (latency : Nat) (msg : String)
deriving DecidableEq

/-- The metric updates of one loop iteration of simulateUserRequests
(stress-test.js lines 401-432): on success, totalRequests and
successfulRequests are incremented and the response time is pushed; in the
catch block, totalRequests and failedRequests are incremented and the
error message is pushed.  The elapsed time of a failed attempt is not
recorded anywhere. -/
def recordAttempt (m : TestMetrics) : AttemptResult → TestMetrics
  | AttemptResult.ok t =>
    { m with totalRequests := m.totalRequests + 1,
             successfulRequests := m.successfulRequests + 1,
             responseTimes := m.responseTimes ++ [t] }
  | AttemptResult.fail _ e =>
    { m with totalRequests := m.totalRequests + 1,
             failedRequests := m.failedRequests + 1,
             errors := m.errors ++ [e] }

/-- Recording a sequence of request attempts in order. -/
def recordRun (m : TestMetrics) (os : List AttemptResult) : TestMetrics :=
  os.foldl recordAttempt m

/-- The r sequential requests of one virtual user; the environment gives
the outcome of each attempt. -/
def simulateUserRequests (outcome : Nat → AttemptResult) (r : Nat)
    (m : TestMetrics) : TestMetrics :=
  recordRun m ((List.range r).map outcome)

/-- A whole stress-test run (stressTestUserService / stressTestOrderService
/ mixedLoadTest body): resetMetrics, set startTime, run c virtual users of
r requests each, set endTime.  The per-request counter updates commute, so
the final counters do not depend on how the single-threaded event loop
interleaves the users; the embedding runs them in user order. -/
def stressTestRun (outcome : Nat → Nat → AttemptResult) (c r : Nat)
    (s e : Int) : TestMetrics :=
  let m0 := { resetMetricsState with startTime := s }
  let m1 := (List.range c).foldl (fun m u => simulateUserRequests (outcome u) r m) m0
  { m1 with endTime := e }

/-- errorTypes = [...new Set(errors)]: first occurrences in order. -/
def errorTypesOf (errors : List String) : List String :=
  errors.foldl (fun acc e => if e ∈ acc then acc else acc ++ [e]) []

/-- The summary object built by calculateResults. -/
structure StressResults where
  totalRequests : Nat
  successfulRequests : Nat
  failedRequests : Nat
  successRate : Rat
  duration : Int
  avgResponseTime : Rat
  minResponseTime : Nat
  maxResponseTime : Nat
  requestsPerSecond : Rat
  errorTypes : List String
deriving DecidableEq

/-- calculateResults (stress-test.js lines 669-698): every division is
guarded by a positivity test on its denominator. -/
def calculateResults (m : TestMetrics) : StressResults :=
  let duration : Int := m.endTime - m.startTime
  let successRate : Rat :=
    if m.totalRequests > 0 then (m.successfulRequests : Rat) / (m.totalRequests : Rat)
    else 0
  let avgResponseTime : Rat :=
    if m.responseTimes.length > 0 then
      ((m.responseTimes.sum : Rat) / (m.responseTimes.length : Rat))
    else 0
  let minResponseTime : Nat :=
    match m.responseTimes with
    | [] => 0
    | t :: ts => ts.foldl Nat.min t
  let maxResponseTime : Nat :=
    match m.responseTimes with
    | [] => 0
    | t :: ts => ts.foldl Nat.max t
  let requestsPerSecond : Rat :=
    if duration > 0 then ((m.totalRequests : Rat) / (duration : Rat)) * 1000
    else 0
  ⟨m.totalRequests, m.successfulRequests, m.failedRequests, successRate,
   duration, avgResponseTime, minResponseTime, maxResponseTime,
   requestsPerSecond, errorTypesOf m.errors⟩

/-- stressTestUserService (stress-test.js lines 366-398): run the load and
pass iff successRate is at least 0.95. -/
def stressTestUserService (outcome : Nat → Nat → AttemptResult) (c r : Nat)
    (s e : Int) : Bool :=
  decide ((19 : Rat) / 20 ≤ (calculateResults (stressTestRun outcome c r s e)).successRate)

/-- The three operation kinds of the mixed-load test. -/
inductive MixedOp where
  | createUser
  | createOrder
  | readOp
deriving DecidableEq

/-- The per-request operation selection of simulateMixedRequests
(stress-test.js lines 542-575): a uniform sample below 0.5 creates a user,
below 0.8 creates an order, and otherwise performs a read. -/
def selectOperation (r : Rat) : MixedOp :=
  if r < 1 / 2 then MixedOp.createUser
  else if r < 4 / 5 then MixedOp.createOrder
  else MixedOp.readOp

/-- mixedLoadTest (stress-test.js lines 503-533): run the mixed load (the
operation selection chooses the endpoint; the outcome environment gives
each attempt result) and pass iff successRate is at least 0.90. -/
def mixedLoadTest (outcome : Nat → Nat → AttemptResult) (c r : Nat)
    (s e : Int) : Bool :=
  decide ((9 : Rat) / 10 ≤ (calculateResults (stressTestRun outcome c r s e)).successRate)

/-! ## Sequencing of the stress suites (runAllStressTests)

Each of the three summarised load tests begins with resetMetrics, so its
summary is a function of its own outcomes only; monitorSystemPerformance
afterwards records further outcomes into the shared accumulator but never
computes a summary.
-/

/-- One summarised load-test run against the shared accumulator: reset,
record this run, stamp the times, summarise.  The prior accumulator value
is discarded by resetMetrics, exactly as in the source. -/
def runLoadTest (s e : Int) (os : List AttemptResult) (_m : TestMetrics) :
    StressResults × TestMetrics :=
  let m1 := { recordRun { resetMetricsState with startTime := s } os with endTime := e }
  (calculateResults m1, m1)

/-- runAllStressTests (stress-test.js lines 701-717) at the metrics level:
the three summarised runs in sequence threading the shared accumulator,
then the monitoring phase which records osMon without reset and without
summarising. -/
def runAllStressTestsModel (s1 e1 s2 e2 s3 e3 : Int)
    (os1 os2 os3 osMon : List AttemptResult) (m0 : TestMetrics) :
    (StressResults × StressResults × StressResults) × TestMetrics :=
  let p1 := runLoadTest s1 e1 os1 m0
  let p2 := runLoadTest s2 e2 os2 p1.2
  let p3 := runLoadTest s3 e3 os3 p2.2
  ((p1.1, p2.1, p3.1), recordRun p3.2 osMon)

/-! ## Cassandra node-recovery scenario (tests/system-recovery.test.js lines 98-157)

The scenario body is a straight-line sequence of awaited steps inside one
try/catch; any step failure throws, the catch logs and returns false.  The
environment records what each external step would yield. -/

/-- The names of the scenario steps, in source order. -/
inductive CassStep where
  | createMarker
  | stopNode
  | degradedWrite
  | startNode
  | rejoinWait
  | postValidate
deriving DecidableEq

/-- The external world of one scenario run: the marker creation resolves
with an id or throws; docker stop/start succeed or fail; the degraded
write resolves with an id or throws; the final user listing resolves or
throws. -/
structure CassandraEnv where
  createUser1 : Option Nat
  stopNode : Bool
  createUser2 : Option Nat
  startNode : Bool
  fetchUsers : Option (List Nat)

/-- testCassandraNodeRecovery: returns the boolean result and the list of
steps that were executed in this run. -/
def testCassandraNodeRecovery (env : CassandraEnv) : Bool × List CassStep :=
  match env.createUser1 with
  | none => (false, [CassStep.createMarker])
  | some id1 =>
    if env.stopNode = false then
      (false, [CassStep.createMarker, CassStep.stopNode])
    else
      match env.createUser2 with
      | none => (false, [CassStep.createMarker, CassStep.stopNode, CassStep.degradedWrite])
      | some id2 =>
        if env.startNode = false then
          (false, [CassStep.createMarker, CassStep.stopNode, CassStep.degradedWrite,
                   CassStep.startNode])
        else
          match env.fetchUsers with
          | none =>
            (false, [CassStep.createMarker, CassStep.stopNode, CassStep.degradedWrite,
                     CassStep.startNode, CassStep.rejoinWait, CassStep.postValidate])
          | some users =>
            (decide (id1 ∈ users) && decide (id2 ∈ users),
             [CassStep.createMarker, CassStep.stopNode, CassStep.degradedWrite,
              CassStep.startNode, CassStep.rejoinWait, CassStep.postValidate])

/-! ## Theorems -/

theorem waitForServiceGo_allFail (probe : Nat → ProbeResult)
    (h : ∀ j, isHealthy (probe j) = false) :
    ∀ fuel i, waitForServiceGo probe i fuel = (false, fuel) := by
  intro fuel
  induction fuel with
  | zero => intro i; rfl
  | succ n ih =>
    intro i
    simp [waitForServiceGo, h i, ih (i + 1)]

theorem waitForServiceGo_success (probe : Nat → ProbeResult) :
    ∀ fuel d i, d < fuel →
      isHealthy (probe (i + d)) = true →
      (∀ j, j < d → isHealthy (probe (i + j)) = false) →
      waitForServiceGo probe i fuel = (true, d + 1) := by
  intro fuel
  induction fuel with
  | zero => intro d i hd; omega
  | succ n ih =>
    intro d i hd hsucc hfail
    cases d with
    | zero =>
      simp only [Nat.add_zero] at hsucc
      simp [waitForServiceGo, hsucc]
    | succ d' =>
      have h0 : isHealthy (probe i) = false := by
        have := hfail 0 (Nat.succ_pos d')
        simpa using this
      have hsucc' : isHealthy (probe ((i + 1) + d')) = true := by
        have : (i + 1) + d' = i + (d' + 1) := by omega
        rw [this]; exact hsucc
      have hfail' : ∀ j, j < d' → isHealthy (probe ((i + 1) + j)) = false := by
        intro j hj
        have : (i + 1) + j = i + (j + 1) := by omega
        rw [this]
        exact hfail (j + 1) (by omega)
      have hrec := ih d' (i + 1) (by omega) hsucc' hfail'
      simp [waitForServiceGo, h0, hrec]

/-- C1: for every assignment of pass/fail results to the six registered
suites (four required, two optional), the reporter classifies the run as
all-pass exactly when every suite passed, meets-minimum exactly when all
required suites passed but not every suite did, and failed exactly when
some required suite failed; and the boolean returned to the caller is true
iff all required suites passed, regardless of the optional suites. -/
theorem verdict_classification_correct :
    ∀ a b c d e f : Bool,
      (verdictOf ⟨a, b, c, d, e, f⟩ = Verdict.allPass ↔ (a && b && c && d && e && f) = true) ∧
      (verdictOf ⟨a, b, c, d, e, f⟩ = Verdict.meetsMinimum ↔
        ((a && b && c && d) = true ∧ (e && f) = false)) ∧
      (verdictOf ⟨a, b, c, d, e, f⟩ = Verdict.failed ↔ (a && b && c && d) = false) ∧
      (runAllTestsReturn ⟨a, b, c, d, e, f⟩ = true ↔ (a && b && c && d) = true) := by
  decide

/-- Helper: inside the try block, a throwing runner after a prefix of
completing runners yields no result list and stops after the throwing
runner. -/
theorem runSuitesGo_append_threw (pre post : List RunOutcome)
    (h : ∀ o ∈ pre, o ≠ RunOutcome.threw) :
    runSuitesGo (pre ++ RunOutcome.threw :: post) = (none, pre.length + 1) := by
  induction pre with
  | nil => rfl
  | cons o pre ih =>
    cases o with
    | threw => exact absurd rfl (h RunOutcome.threw (List.mem_cons_self _ _))
    | ok b =>
      have h' : ∀ o ∈ pre, o ≠ RunOutcome.threw := by
        intro o ho
        exact h o (List.mem_cons_of_mem _ ho)
      simp [runSuitesGo, ih h']

/-- C2 counterexample: with the first suite runner throwing and the other
five passing, runAllTests returns false having executed only one of the
six suites — the remaining suites are never run and no six-suite verdict
is computed, contrary to the claim that execution continues to every
subsequent suite. -/
theorem suite_throw_does_not_continue :
    runAllTestsList [RunOutcome.threw, RunOutcome.ok true, RunOutcome.ok true,
      RunOutcome.ok true, RunOutcome.ok true, RunOutcome.ok true] = (false, 1) ∧
    (runAllTestsList [RunOutcome.threw, RunOutcome.ok true, RunOutcome.ok true,
      RunOutcome.ok true, RunOutcome.ok true, RunOutcome.ok true]).2 ≠ 6 := by
  exact ⟨rfl, by decide⟩

/-- C2 amended: an uncaught error inside any suite runner is caught by the
single try/catch wrapped around all six runners; runAllTests then returns
false immediately, the suites after the throwing one are never executed,
and no verdict over the suites is computed. -/
theorem suite_throw_aborts_run (pre post : List RunOutcome)
    (h : ∀ o ∈ pre, o ≠ RunOutcome.threw) :
    runAllTestsList (pre ++ RunOutcome.threw :: post) = (false, pre.length + 1) := by
  unfold runAllTestsList
  rw [runSuitesGo_append_threw pre post h]

/-- C2 amended witness: second runner throws, the run aborts after two
executed suites with result false. -/
theorem suite_throw_aborts_run_witness :
    runAllTestsList ([RunOutcome.ok true] ++ RunOutcome.threw ::
      [RunOutcome.ok true, RunOutcome.ok true, RunOutcome.ok true, RunOutcome.ok true]) =
      (false, 2) := by
  exact suite_throw_aborts_run [RunOutcome.ok true]
    [RunOutcome.ok true, RunOutcome.ok true, RunOutcome.ok true, RunOutcome.ok true]
    (by decide)

/-- C3: if the health probe first succeeds with status 200 on attempt k
with 1 ≤ k ≤ maxRetries, waitForService returns true after performing
exactly k probes; and if every probe fails, it performs exactly maxRetries
probes and returns false. -/
theorem waitForService_probe_counts :
    (∀ (probe : Nat → ProbeResult) (maxRetries k : Nat), 1 ≤ k → k ≤ maxRetries →
      isHealthy (probe (k - 1)) = true →
      (∀ j, j < k - 1 → isHealthy (probe j) = false) →
      waitForService probe maxRetries = (true, k)) ∧
    (∀ (probe : Nat → ProbeResult) (maxRetries : Nat),
      (∀ j, isHealthy (probe j) = false) →
      waitForService probe maxRetries = (false, maxRetries)) := by
  constructor
  · intro probe maxRetries k hk hkm hsucc hfail
    have hd : k - 1 < maxRetries := by omega
    have hsucc' : isHealthy (probe (0 + (k - 1))) = true := by simpa using hsucc
    have hfail' : ∀ j, j < k - 1 → isHealthy (probe (0 + j)) = false := by
      intro j hj; simpa using hfail j hj
    have := waitForServiceGo_success probe maxRetries (k - 1) 0 hd hsucc' hfail'
    have hk1 : k - 1 + 1 = k := by omega
    rw [hk1] at this
    exact this
  · intro probe maxRetries h
    exact waitForServiceGo_allFail probe h maxRetries 0

/-- C3 witness: a probe that becomes healthy on the second attempt makes
waitForService with five retries return true after exactly two probes, and
a permanently failing probe with three retries yields false after exactly
three probes. -/
theorem waitForService_probe_counts_witness :
    waitForService (fun j => if j = 1 then ProbeResult.ok 200 else ProbeResult.err) 5 =
      (true, 2) ∧
    waitForService (fun _ => ProbeResult.err) 3 = (false, 3) := by
  constructor
  · exact waitForService_probe_counts.1
      (fun j => if j = 1 then ProbeResult.ok 200 else ProbeResult.err) 5 2
      (by decide) (by decide) (by decide) (by decide)
  · exact waitForService_probe_counts.2 (fun _ => ProbeResult.err) 3 (fun j => rfl)

/-- C10 counterexample: waitForService has no cancellation input; against a
permanently failing probe with maxRetries = 5 it always performs all five
probes — the probe count is never below maxRetries, so nothing can stop
the polling early, contrary to the claimed cancellability. -/
theorem waitForService_no_cancellation :
    waitForService (fun _ => ProbeResult.err) 5 = (false, 5) ∧
    ¬ (waitForService (fun _ => ProbeResult.err) 5).2 < 5 := by
  exact ⟨rfl, by decide⟩

/-- C10 amended: waitForService accepts no cancellation signal; whenever no
probe is healthy it runs to exhaustion, performing exactly maxRetries
probes and returning false — the polling can never stop before maxRetries
probes. -/
theorem waitForService_runs_to_exhaustion (probe : Nat → ProbeResult) (maxRetries : Nat)
    (h : ∀ j, isHealthy (probe j) = false) :
    waitForService probe maxRetries = (false, maxRetries) ∧
    ¬ (waitForService probe maxRetries).2 < maxRetries := by
  have hrun := waitForServiceGo_allFail probe h maxRetries 0
  refine ⟨hrun, ?_⟩
  rw [show waitForService probe maxRetries = waitForServiceGo probe 0 maxRetries from rfl, hrun]
  omega

/-- C10 amended witness: the always-failing probe with four retries. -/
theorem waitForService_runs_to_exhaustion_witness :
    waitForService (fun _ => ProbeResult.err) 4 = (false, 4) ∧
    ¬ (waitForService (fun _ => ProbeResult.err) 4).2 < 4 := by
  exact waitForService_runs_to_exhaustion (fun _ => ProbeResult.err) 4 (fun j => rfl)

/-- C4: the summary of a run that recorded zero requests has successRate 0
and average, minimum and maximum latency all 0; no division is taken,
since the success-rate, latency and throughput divisions are each guarded
by a positivity test on the denominator. -/
theorem calculateResults_zero_run (s e : Int) :
    (calculateResults (recordRun { resetMetricsState with startTime := s, endTime := e } [])).successRate = 0 ∧
    (calculateResults (recordRun { resetMetricsState with startTime := s, endTime := e } [])).avgResponseTime = 0 ∧
    (calculateResults (recordRun { resetMetricsState with startTime := s, endTime := e } [])).minResponseTime = 0 ∧
    (calculateResults (recordRun { resetMetricsState with startTime := s, endTime := e } [])).maxResponseTime = 0 ∧
    (calculateResults (recordRun { resetMetricsState with startTime := s, endTime := e } [])).totalRequests = 0 := by
  exact ⟨rfl, rfl, rfl, rfl, rfl⟩

/-- Helper: recording one attempt increments totalRequests and exactly one
of successfulRequests / failedRequests. -/
theorem recordAttempt_counts (m : TestMetrics) (a : AttemptResult) :
    (recordAttempt m a).totalRequests = m.totalRequests + 1 ∧
    (recordAttempt m a).successfulRequests + (recordAttempt m a).failedRequests =
      m.successfulRequests + m.failedRequests + 1 := by
  cases a with
  | ok t => exact ⟨rfl, by simp [recordAttempt]; omega⟩
  | fail t e => exact ⟨rfl, by simp [recordAttempt]; omega⟩

/-- Helper: recording a sequence of attempts adds its length to
totalRequests and to the sum of the success and failure counters. -/
theorem recordRun_counts (os : List AttemptResult) :
    ∀ m : TestMetrics,
      (recordRun m os).totalRequests = m.totalRequests + os.length ∧
      (recordRun m os).successfulRequests + (recordRun m os).failedRequests =
        m.successfulRequests + m.failedRequests + os.length := by
  induction os with
  | nil => intro m; exact ⟨rfl, rfl⟩
  | cons a os ih =>
    intro m
    have h1 := recordAttempt_counts m a
    have h2 := ih (recordAttempt m a)
    refine ⟨?_, ?_⟩
    · show (recordRun (recordAttempt m a) os).totalRequests = m.totalRequests + (os.length + 1)
      rw [h2.1, h1.1]; omega
    · show (recordRun (recordAttempt m a) os).successfulRequests +
        (recordRun (recordAttempt m a) os).failedRequests =
        m.successfulRequests + m.failedRequests + (os.length + 1)
      rw [h2.2, h1.2]; omega

/-- Helper: counter bookkeeping for a whole stress-test run of c users with
r requests each, by induction over the users. -/
theorem stressTestRun_counts (outcome : Nat → Nat → AttemptResult) (c r : Nat)
    (s e : Int) :
    (stressTestRun outcome c r s e).totalRequests = c * r ∧
    (stressTestRun outcome c r s e).successfulRequests +
      (stressTestRun outcome c r s e).failedRequests = c * r := by
  have main : ∀ (n : Nat) (m : TestMetrics),
      ((List.range n).foldl (fun m u => simulateUserRequests (outcome u) r m) m).totalRequests =
        m.totalRequests + n * r ∧
      ((List.range n).foldl (fun m u => simulateUserRequests (outcome u) r m) m).successfulRequests +
        ((List.range n).foldl (fun m u => simulateUserRequests (outcome u) r m) m).failedRequests =
        m.successfulRequests + m.failedRequests + n * r := by
    intro n
    induction n with
    | zero => intro m; simp
    | succ k ih =>
      intro m
      rw [List.range_succ, List.foldl_append]
      have hrec := recordRun_counts ((List.range r).map (outcome k))
        ((List.range k).foldl (fun m u => simulateUserRequests (outcome u) r m) m)
      have hk := ih m
      constructor
      · show (recordRun _ ((List.range r).map (outcome k))).totalRequests = _
        rw [hrec.1, hk.1]
        simp [Nat.succ_mul]
        omega
      · show (recordRun _ ((List.range r).map (outcome k))).successfulRequests +
          (recordRun _ ((List.range r).map (outcome k))).failedRequests = _
        rw [hrec.2, hk.2]
        simp [Nat.succ_mul]
        omega
  have h := main c ({ resetMetricsState with startTime := s })
  have h1 : (stressTestRun outcome c r s e).totalRequests = 0 + c * r := h.1
  have h2 : (stressTestRun outcome c r s e).successfulRequests +
      (stressTestRun outcome c r s e).failedRequests = 0 + 0 + c * r := h.2
  exact ⟨by omega, by omega⟩

/-- C5: for a stress-test run of c concurrent virtual users each issuing r
sequential requests, each attempt increments the total counter and exactly
one of the success and failure counters, so at completion totalRequests
equals c * r and successfulRequests + failedRequests equals
totalRequests. -/
theorem stress_run_counting_invariant :
    (∀ (m : TestMetrics) (a : AttemptResult),
      (recordAttempt m a).totalRequests = m.totalRequests + 1 ∧
      (recordAttempt m a).successfulRequests + (recordAttempt m a).failedRequests =
        m.successfulRequests + m.failedRequests + 1) ∧
    (∀ (outcome : Nat → Nat → AttemptResult) (c r : Nat) (s e : Int),
      (stressTestRun outcome c r s e).totalRequests = c * r ∧
      (stressTestRun outcome c r s e).successfulRequests +
        (stressTestRun outcome c r s e).failedRequests =
        (stressTestRun outcome c r s e).totalRequests) := by
  refine ⟨recordAttempt_counts, ?_⟩
  intro outcome c r s e
  have h := stressTestRun_counts outcome c r s e
  exact ⟨h.1, by rw [h.2, h.1]⟩

/-- C6: the mixed-load operation selection maps the uniform sample r to
user-creation exactly on [0, 1/2), to order-creation exactly on
[1/2, 4/5), and to a read exactly on [4/5, 1) — subintervals of width 1/2,
3/10 and 1/5, the claimed probabilities 0.5, 0.3 and 0.2; the mixed-load
test passes iff its success rate is at least 0.90, and the single-service
stress test under the same load parameters passes iff its success rate is
at least 0.95. -/
theorem mixed_load_mix_and_thresholds :
    (∀ r : Rat,
      (selectOperation r = MixedOp.createUser ↔ r < 1 / 2) ∧
      (selectOperation r = MixedOp.createOrder ↔ 1 / 2 ≤ r ∧ r < 4 / 5) ∧
      (selectOperation r = MixedOp.readOp ↔ 4 / 5 ≤ r)) ∧
    ((1 : Rat) / 2 - 0 = 1 / 2 ∧ (4 : Rat) / 5 - 1 / 2 = 3 / 10 ∧
      (1 : Rat) - 4 / 5 = 1 / 5) ∧
    (∀ (outcome : Nat → Nat → AttemptResult) (c r : Nat) (s e : Int),
      (mixedLoadTest outcome c r s e = true ↔
        (9 : Rat) / 10 ≤ (calculateResults (stressTestRun outcome c r s e)).successRate) ∧
      (stressTestUserService outcome c r s e = true ↔
        (19 : Rat) / 20 ≤ (calculateResults (stressTestRun outcome c r s e)).successRate)) := by
  refine ⟨?_, by norm_num, ?_⟩
  · intro r
    unfold selectOperation
    by_cases h1 : r < 1 / 2
    · rw [if_pos h1]
      exact ⟨⟨fun _ => h1, fun _ => rfl⟩,
        ⟨fun h => absurd h (by decide), fun hc => absurd hc.1 (not_le.2 h1)⟩,
        ⟨fun h => absurd h (by decide),
         fun hc => absurd h1 (not_lt.2 (le_trans (by norm_num) hc))⟩⟩
    · by_cases h2 : r < 4 / 5
      · rw [if_neg h1, if_pos h2]
        exact ⟨⟨fun h => absurd h (by decide), fun hr => absurd hr h1⟩,
          ⟨fun _ => ⟨not_lt.1 h1, h2⟩, fun _ => rfl⟩,
          ⟨fun h => absurd h (by decide), fun hc => absurd h2 (not_lt.2 hc)⟩⟩
      · rw [if_neg h1, if_neg h2]
        exact ⟨⟨fun h => absurd h (by decide), fun hr => absurd hr h1⟩,
          ⟨fun h => absurd h (by decide), fun hc => absurd hc.2 h2⟩,
          ⟨fun _ => not_lt.1 h2, fun _ => rfl⟩⟩
  · intro outcome c r s e
    constructor
    · unfold mixedLoadTest
      exact decide_eq_true_iff
    · unfold stressTestUserService
      exact decide_eq_true_iff

/-- C7: in the Cassandra node-recovery scenario, when the marker record was
created but the fault-injection step (stopping the node) fails, the run
returns false having executed only the marker creation and the stop
attempt: the degraded-state validation, the recovery restart and the
post-validation are never executed. -/
theorem cassandra_fault_injection_short_circuit (env : CassandraEnv) (i : Nat)
    (h1 : env.createUser1 = some i) (h2 : env.stopNode = false) :
    testCassandraNodeRecovery env = (false, [CassStep.createMarker, CassStep.stopNode]) ∧
    CassStep.degradedWrite ∉ (testCassandraNodeRecovery env).2 ∧
    CassStep.startNode ∉ (testCassandraNodeRecovery env).2 ∧
    CassStep.postValidate ∉ (testCassandraNodeRecovery env).2 := by
  have hrun : testCassandraNodeRecovery env =
      (false, [CassStep.createMarker, CassStep.stopNode]) := by
    simp [testCassandraNodeRecovery, h1, h2]
  refine ⟨hrun, ?_, ?_, ?_⟩ <;> rw [hrun] <;> decide

/-- C7 witness: a concrete environment in which the marker creation
succeeds with id 7 and the docker stop fails. -/
theorem cassandra_fault_injection_short_circuit_witness :
    testCassandraNodeRecovery ⟨some 7, false, none, false, none⟩ =
      (false, [CassStep.createMarker, CassStep.stopNode]) ∧
    CassStep.degradedWrite ∉ (testCassandraNodeRecovery ⟨some 7, false, none, false, none⟩).2 ∧
    CassStep.startNode ∉ (testCassandraNodeRecovery ⟨some 7, false, none, false, none⟩).2 ∧
    CassStep.postValidate ∉ (testCassandraNodeRecovery ⟨some 7, false, none, false, none⟩).2 := by
  exact cassandra_fault_injection_short_circuit ⟨some 7, false, none, false, none⟩ 7 rfl rfl

/-- C8 counterexample: a request that fails after 123 elapsed milliseconds
is counted as a failure, but its latency is recorded nowhere — the
response-time list stays empty — contrary to the claim that a failed
outcome carries latency equal to the elapsed time up to the failure. -/
theorem failed_request_latency_dropped :
    (recordAttempt resetMetricsState (AttemptResult.fail 123 "timeout of 10000ms exceeded")).totalRequests = 1 ∧
    (recordAttempt resetMetricsState (AttemptResult.fail 123 "timeout of 10000ms exceeded")).failedRequests = 1 ∧
    (recordAttempt resetMetricsState (AttemptResult.fail 123 "timeout of 10000ms exceeded")).responseTimes = [] := by
  exact ⟨rfl, rfl, rfl⟩

/-- C8 amended: every request that times out or fails is recorded as a
failure — the total and failed counters increment and the error message is
appended — and no attempt is dropped from the totals; but the elapsed time
of a failed request is not recorded: the response-time list is unchanged,
so recorded latencies cover successful requests only. -/
theorem failed_request_recorded_without_latency (m : TestMetrics) (t : Nat) (e : String) :
    ((recordAttempt m (AttemptResult.fail t e)).totalRequests = m.totalRequests + 1) ∧
    ((recordAttempt m (AttemptResult.fail t e)).failedRequests = m.failedRequests + 1) ∧
    ((recordAttempt m (AttemptResult.fail t e)).successfulRequests = m.successfulRequests) ∧
    ((recordAttempt m (AttemptResult.fail t e)).responseTimes = m.responseTimes) ∧
    ((recordAttempt m (AttemptResult.fail t e)).errors = m.errors ++ [e]) ∧
    (∀ os : List AttemptResult, (recordRun m os).totalRequests = m.totalRequests + os.length) := by
  refine ⟨rfl, rfl, rfl, rfl, rfl, ?_⟩
  intro os
  exact (recordRun_counts os m).1

/-- C9: metrics are never leaked between the summarised load-test runs:
because every summarised run begins with resetMetrics, the three summaries
produced by the stress suite are independent of whatever state the shared
accumulator held before, and each equals the summary of a run over a fresh
accumulator fed only the outcomes of that run; the later monitoring phase
appends to the accumulator but produces no summary. -/
theorem metrics_isolated_across_runs (s1 e1 s2 e2 s3 e3 : Int)
    (os1 os2 os3 osMon : List AttemptResult) (m0 m0a : TestMetrics) :
    (runAllStressTestsModel s1 e1 s2 e2 s3 e3 os1 os2 os3 osMon m0).1 =
      (runAllStressTestsModel s1 e1 s2 e2 s3 e3 os1 os2 os3 osMon m0a).1 ∧
    (runAllStressTestsModel s1 e1 s2 e2 s3 e3 os1 os2 os3 osMon m0).1.1 =
      (runLoadTest s1 e1 os1 resetMetricsState).1 ∧
    (runAllStressTestsModel s1 e1 s2 e2 s3 e3 os1 os2 os3 osMon m0).1.2.1 =
      (runLoadTest s2 e2 os2 resetMetricsState).1 ∧
    (runAllStressTestsModel s1 e1 s2 e2 s3 e3 os1 os2 os3 osMon m0).1.2.2 =
      (runLoadTest s3 e3 os3 resetMetricsState).1 := by
  exact ⟨rfl, rfl, rfl, rfl⟩
